import Mathlib

/-!
Verification of the ModelScope `ZeroShotClassificationPipeline`
(`modelscope/pipelines/nlp/zero_shot_classification_pipeline.py`).

The pipeline is a thin orchestration layer: parameter sanitization splits
call-time keyword arguments into preprocess/forward/postprocess parameter
sets, and `postprocess` converts the model's 3-way entailment logits into
labels ranked by score via softmax and a descending sort.

Shallow embedding choices:
* Logits are rational numbers (`ℚ`); the exponential inside `softmax` is an
  explicit function parameter `e : ℚ → ℚ` (the real code uses
  `scipy.special.softmax`, i.e. `e = exp`; the claims only ever need
  positivity of `e`, stated as a hypothesis where required).
* A 2-D logits tensor of shape (num_labels, 3) is `List (List ℚ)`, one inner
  row per candidate label.
* A Python kwargs dict is an association list `List (String × ParamValue)`;
  `numpy.argsort` is an ascending sort of the index range by score.
-/

/-- Values that can appear in the pipeline's keyword-argument dictionaries:
the candidate label list, the hypothesis template string, or the
multi-label flag. -/
inductive ParamValue where
  | labels : List String → ParamValue
  | str : String → ParamValue
  | bool : Bool → ParamValue
deriving DecidableEq, Repr

/-- The state fixed by `ZeroShotClassificationPipeline.__init__`: the two
class-index constants used to slice the 3-way entailment logits. -/
structure ZeroShotClassificationPipeline where
  entailment_id : Nat
  contradiction_id : Nat
deriving DecidableEq, Repr

/-- `__init__` sets `self.entailment_id = 0` and `self.contradiction_id = 2`
(source lines 41-42). -/
def ZeroShotClassificationPipeline.init : ZeroShotClassificationPipeline :=
  { entailment_id := 0, contradiction_id := 2 }

/-- `_sanitize_parameters(**kwargs)`: requires the `candidate_labels` key
(raising `ValueError('You must include at least one label.')` when absent,
modelled as `Except.error`), routes `candidate_labels` to both the
preprocess and postprocess parameter dicts, `hypothesis_template`
(default `"{}"`) to preprocess only, `multi_label` (default `False`) to
postprocess only, and returns the empty dict for the forward stage. -/
def ZeroShotClassificationPipeline._sanitize_parameters
    (kwargs : List (String × ParamValue)) :
    Except String (List (String × ParamValue) × List (String × ParamValue)
      × List (String × ParamValue)) :=
  match kwargs.lookup "candidate_labels" with
  | none => Except.error "You must include at least one label."
  | some candidate_labels =>
    let preprocess_params :=
      [("candidate_labels", candidate_labels),
       ("hypothesis_template",
         (kwargs.lookup "hypothesis_template").getD (ParamValue.str "\x7b\x7d"))]
    let postprocess_params :=
      [("candidate_labels", candidate_labels),
       ("multi_label", (kwargs.lookup "multi_label").getD (ParamValue.bool false))]
    Except.ok (preprocess_params, [], postprocess_params)

/-- `scipy.special.softmax` along the last axis of a 1-D vector:
each entry `x` becomes `e x / Σ e y`.  (`e` stands for the exponential.)
On an empty vector the real scipy call raises `ValueError` (its leading
`np.amax` is a zero-size reduction with no identity); this pure version
totalizes that case to `[]` and is relied on only for non-empty vectors —
the error path is modelled explicitly by
`ZeroShotClassificationPipeline.scoresOfChecked` below. -/
def softmax (e : ℚ → ℚ) (v : List ℚ) : List ℚ :=
  v.map (fun x => e x / (v.map e).sum)

/-- `logits[..., [self.contradiction_id, self.entailment_id]]` applied to one
row: the two-column slice, contradiction column first. -/
def ZeroShotClassificationPipeline.selectPair
    (p : ZeroShotClassificationPipeline) (row : List ℚ) : List ℚ :=
  [row.getD p.contradiction_id 0, row.getD p.entailment_id 0]

/-- The `scores` array computed by `postprocess` before sorting:
if `multi_label or len(candidate_labels) == 1`, per-row softmax over the
(contradiction, entailment) column pair keeping component 1 (entailment);
otherwise softmax over the entailment column across all rows. -/
def ZeroShotClassificationPipeline.scoresOf (e : ℚ → ℚ)
    (p : ZeroShotClassificationPipeline) (logits : List (List ℚ))
    (candidate_labels : List String) (multi_label : Bool) : List ℚ :=
  if multi_label || candidate_labels.length == 1 then
    logits.map (fun row => (softmax e (p.selectPair row)).getD 1 0)
  else
    softmax e (logits.map (fun row => row.getD p.entailment_id 0))

/-- `numpy.argsort`: the indices `0..n-1` sorted so that the scores they
point at are ascending.  (numpy leaves the relative order of tied scores
unspecified; any ascending sort is a faithful model, insertion sort here.) -/
def argsort (scores : List ℚ) : List Nat :=
  (List.range scores.length).insertionSort
    (fun i j => scores.getD i 0 ≤ scores.getD j 0)

/-- `postprocess(inputs, candidate_labels, multi_label)`: computes `scores`,
forms `reversed_index = list(reversed(scores.argsort()))`, and returns the
pair (labels reordered by descending score, scores in that same order). -/
def ZeroShotClassificationPipeline.postprocess (e : ℚ → ℚ)
    (p : ZeroShotClassificationPipeline) (logits : List (List ℚ))
    (candidate_labels : List String) (multi_label : Bool) :
    List String × List ℚ :=
  let scores := p.scoresOf e logits candidate_labels multi_label
  let reversed_index := (argsort scores).reverse
  (reversed_index.map (fun i => candidate_labels.getD i ""),
   reversed_index.map (fun i => scores.getD i 0))

/-- The `scores` computation of `postprocess` with scipy's failure made
explicit.  `scipy.special.softmax` starts with `np.amax(x, axis=-1,
keepdims=True)`: in the else branch the input is the shape-(num_labels,)
entailment column, and when that column is empty the zero-size reduction
raises `ValueError`, modelled as `none`.  In the multi-label/pair branch the
reduction axis is the size-2 column pair, so an empty row dimension reduces
without error to an empty array. -/
def ZeroShotClassificationPipeline.scoresOfChecked (e : ℚ → ℚ)
    (p : ZeroShotClassificationPipeline) (logits : List (List ℚ))
    (candidate_labels : List String) (multi_label : Bool) :
    Option (List ℚ) :=
  if multi_label || candidate_labels.length == 1 then
    some (logits.map (fun row => (softmax e (p.selectPair row)).getD 1 0))
  else if logits.map (fun row => row.getD p.entailment_id 0) = [] then
    none
  else
    some (softmax e (logits.map (fun row => row.getD p.entailment_id 0)))

/-- `postprocess` with scipy's error path made explicit: `none` when the
softmax call raises, otherwise exactly the ranked labels and scores that
`postprocess` returns. -/
def ZeroShotClassificationPipeline.postprocessChecked (e : ℚ → ℚ)
    (p : ZeroShotClassificationPipeline) (logits : List (List ℚ))
    (candidate_labels : List String) (multi_label : Bool) :
    Option (List String × List ℚ) :=
  match p.scoresOfChecked e logits candidate_labels multi_label with
  | none => none
  | some scores =>
      some (((argsort scores).reverse).map
              (fun i => candidate_labels.getD i ""),
            ((argsort scores).reverse).map (fun i => scores.getD i 0))

/-- A concrete computable stand-in for the exponential used by witnesses:
positive and strictly monotone on `ℚ`. -/
def eW (x : ℚ) : ℚ := if 0 ≤ x then x + 1 else 1 / (1 - x)

theorem eW_pos : ∀ x : ℚ, 0 < eW x := by
  intro x
  unfold eW
  split
  · linarith
  · apply div_pos one_pos
    linarith

/-! ### Helper lemmas -/

theorem softmax_length (e : ℚ → ℚ) (v : List ℚ) :
    (softmax e v).length = v.length := by
  simp [softmax]

theorem scoresOf_length (e : ℚ → ℚ) (p : ZeroShotClassificationPipeline)
    (logits : List (List ℚ)) (cl : List String) (ml : Bool) :
    (p.scoresOf e logits cl ml).length = logits.length := by
  unfold ZeroShotClassificationPipeline.scoresOf
  split
  · simp
  · simp [softmax_length]

theorem argsort_perm (scores : List ℚ) :
    (argsort scores).Perm (List.range scores.length) :=
  List.perm_insertionSort _ _

theorem map_getD_range {α : Type} (l : List α) (d : α) :
    (List.range l.length).map (fun i => l.getD i d) = l := by
  apply List.ext_getElem
  · simp
  · intro n h₁ h₂
    simp only [List.getElem_map, List.getElem_range]
    exact List.getD_eq_getElem l d h₂

theorem postprocess_fst_def (e : ℚ → ℚ) (p : ZeroShotClassificationPipeline)
    (logits : List (List ℚ)) (cl : List String) (ml : Bool) :
    (p.postprocess e logits cl ml).1
      = ((argsort (p.scoresOf e logits cl ml)).reverse).map
          (fun i => cl.getD i "") := rfl

theorem postprocess_snd_def (e : ℚ → ℚ) (p : ZeroShotClassificationPipeline)
    (logits : List (List ℚ)) (cl : List String) (ml : Bool) :
    (p.postprocess e logits cl ml).2
      = ((argsort (p.scoresOf e logits cl ml)).reverse).map
          (fun i => (p.scoresOf e logits cl ml).getD i 0) := rfl

theorem reversed_index_perm (scores : List ℚ) :
    ((argsort scores).reverse).Perm (List.range scores.length) :=
  ((argsort scores).reverse_perm).trans (argsort_perm scores)

theorem postprocess_scores_perm (e : ℚ → ℚ) (p : ZeroShotClassificationPipeline)
    (logits : List (List ℚ)) (cl : List String) (ml : Bool) :
    (p.postprocess e logits cl ml).2.Perm (p.scoresOf e logits cl ml) := by
  rw [postprocess_snd_def]
  have h := (reversed_index_perm (p.scoresOf e logits cl ml)).map
    (fun i => (p.scoresOf e logits cl ml).getD i 0)
  rw [map_getD_range] at h
  exact h

theorem scoresOf_pair_getD (e : ℚ → ℚ) (p : ZeroShotClassificationPipeline)
    (logits : List (List ℚ)) (cl : List String) (ml : Bool)
    (hbranch : ml = true ∨ cl.length = 1) (i : Nat) (hi : i < logits.length) :
    (p.scoresOf e logits cl ml).getD i 0
      = e ((logits.getD i []).getD p.entailment_id 0)
        / (e ((logits.getD i []).getD p.contradiction_id 0)
           + e ((logits.getD i []).getD p.entailment_id 0)) := by
  have hcond : (ml || cl.length == 1) = true := by
    rcases hbranch with h | h
    · simp [h]
    · simp [h]
  unfold ZeroShotClassificationPipeline.scoresOf
  rw [if_pos hcond]
  have hi' : i < (logits.map
      (fun row => (softmax e (p.selectPair row)).getD 1 0)).length := by
    simpa using hi
  rw [List.getD_eq_getElem _ _ hi', List.getElem_map,
    List.getD_eq_getElem logits [] hi]
  simp [softmax, ZeroShotClassificationPipeline.selectPair]

theorem pairScore_bounds (e : ℚ → ℚ) (epos : ∀ x, 0 < e x) (a b : ℚ) :
    0 ≤ e b / (e a + e b) ∧ e b / (e a + e b) ≤ 1 := by
  have ha := epos a
  have hb := epos b
  constructor
  · exact div_nonneg (le_of_lt hb) (by linarith)
  · rw [div_le_one (by linarith)]
    linarith

theorem scoresOf_pair_all_bounds (e : ℚ → ℚ) (epos : ∀ x, 0 < e x)
    (p : ZeroShotClassificationPipeline) (logits : List (List ℚ))
    (cl : List String) (ml : Bool) (hbranch : ml = true ∨ cl.length = 1) :
    ∀ s ∈ p.scoresOf e logits cl ml, 0 ≤ s ∧ s ≤ 1 := by
  intro s hs
  have hcond : (ml || cl.length == 1) = true := by
    rcases hbranch with h | h
    · simp [h]
    · simp [h]
  unfold ZeroShotClassificationPipeline.scoresOf at hs
  rw [if_pos hcond] at hs
  rcases List.mem_map.mp hs with ⟨row, _, rfl⟩
  have hform : (softmax e (p.selectPair row)).getD 1 0
      = e (row.getD p.entailment_id 0)
        / (e (row.getD p.contradiction_id 0) + e (row.getD p.entailment_id 0)) := by
    simp [softmax, ZeroShotClassificationPipeline.selectPair]
  rw [hform]
  exact pairScore_bounds e epos _ _

theorem sum_map_div (e : ℚ → ℚ) (c : ℚ) (v : List ℚ) :
    (v.map (fun x => e x / c)).sum = (v.map e).sum / c := by
  induction v with
  | nil => simp
  | cons a t ih => simp [ih, add_div]

theorem softmax_sum (e : ℚ → ℚ) (epos : ∀ x, 0 < e x) (v : List ℚ)
    (hv : v ≠ []) : (softmax e v).sum = 1 := by
  unfold softmax
  rw [sum_map_div]
  have hpos : 0 < (v.map e).sum := by
    apply List.sum_pos
    · intro x hx
      rcases List.mem_map.mp hx with ⟨y, _, rfl⟩
      exact epos y
    · simpa using hv
  exact div_self (ne_of_gt hpos)

theorem scoresOf_else (e : ℚ → ℚ) (p : ZeroShotClassificationPipeline)
    (logits : List (List ℚ)) (cl : List String) (h1 : cl.length ≠ 1) :
    p.scoresOf e logits cl false
      = softmax e (logits.map (fun row => row.getD p.entailment_id 0)) := by
  unfold ZeroShotClassificationPipeline.scoresOf
  rw [if_neg]
  simpa using h1

theorem argsort_sorted (scores : List ℚ) :
    List.Pairwise (fun i j => scores.getD i 0 ≤ scores.getD j 0)
      (argsort scores) := by
  haveI : IsTotal Nat (fun i j => scores.getD i 0 ≤ scores.getD j 0) :=
    ⟨fun _ _ => le_total _ _⟩
  haveI : IsTrans Nat (fun i j => scores.getD i 0 ≤ scores.getD j 0) :=
    ⟨fun _ _ _ => le_trans⟩
  exact List.sorted_insertionSort _ _

theorem postprocess_scores_pairwise (e : ℚ → ℚ)
    (p : ZeroShotClassificationPipeline) (logits : List (List ℚ))
    (cl : List String) (ml : Bool) :
    List.Pairwise (fun a b : ℚ => b ≤ a) (p.postprocess e logits cl ml).2 := by
  rw [postprocess_snd_def]
  have hrev : List.Pairwise
      (fun i j => (p.scoresOf e logits cl ml).getD j 0
        ≤ (p.scoresOf e logits cl ml).getD i 0)
      ((argsort (p.scoresOf e logits cl ml)).reverse) := by
    rw [List.pairwise_reverse]
    exact argsort_sorted (p.scoresOf e logits cl ml)
  exact List.Pairwise.map _ (fun a b hab => hab) hrev

theorem postprocess_fst_length (e : ℚ → ℚ) (p : ZeroShotClassificationPipeline)
    (logits : List (List ℚ)) (cl : List String) (ml : Bool) :
    (p.postprocess e logits cl ml).1.length = logits.length := by
  rw [postprocess_fst_def, List.length_map, List.length_reverse]
  unfold argsort
  rw [List.length_insertionSort, List.length_range, scoresOf_length]

theorem postprocess_snd_length (e : ℚ → ℚ) (p : ZeroShotClassificationPipeline)
    (logits : List (List ℚ)) (cl : List String) (ml : Bool) :
    (p.postprocess e logits cl ml).2.length = logits.length := by
  rw [postprocess_snd_def, List.length_map, List.length_reverse]
  unfold argsort
  rw [List.length_insertionSort, List.length_range, scoresOf_length]

/-! ### Claim theorems -/

/-- C1, counterexample: the claim says the pipeline fixes the entailment
class index to 2 and the contradiction class index to 0; the constructor
does the opposite (`entailment_id = 0`, `contradiction_id = 2`), and on the
concrete single-label logits row `[0, 5, 10]` the returned score is built
from column 0 (value `1/12`), not from column 2 (which would give `11/12`). -/
theorem C1_claim_counterexample :
    (¬ (ZeroShotClassificationPipeline.init.entailment_id = 2 ∧
        ZeroShotClassificationPipeline.init.contradiction_id = 0)) ∧
    (ZeroShotClassificationPipeline.init.postprocess eW [[0, 5, 10]] ["x"]
        false).2 = [1 / 12] ∧ (1 : ℚ) / 12 ≠ 11 / 12 := by
  refine ⟨by decide, ?_, by norm_num⟩
  norm_num [ZeroShotClassificationPipeline.postprocess,
    ZeroShotClassificationPipeline.scoresOf, softmax,
    ZeroShotClassificationPipeline.selectPair, argsort, List.insertionSort,
    eW, ZeroShotClassificationPipeline.init]

/-- C1 (amended): at construction the pipeline fixes the entailment class
index to 0 and the contradiction class index to 2, so postprocessing reads
each label's entailment score from column 0 and its contradiction score
from column 2 of the logits tensor. -/
theorem C1_class_index_constants :
    ZeroShotClassificationPipeline.init.entailment_id = 0 ∧
    ZeroShotClassificationPipeline.init.contradiction_id = 2 ∧
    ∀ (e : ℚ → ℚ) (row : List ℚ),
      (ZeroShotClassificationPipeline.init.scoresOf e [row] ["label"]
          false).getD 0 0
        = e (row.getD 0 0) / (e (row.getD 2 0) + e (row.getD 0 0)) := by
  refine ⟨rfl, rfl, ?_⟩
  intro e row
  have h := scoresOf_pair_getD e ZeroShotClassificationPipeline.init [row]
    ["label"] false (Or.inr rfl) 0 (by simp)
  simpa [ZeroShotClassificationPipeline.init] using h

/-- C2: when the `candidate_labels` keyword is absent, `_sanitize_parameters`
returns the value error "You must include at least one label." (and hence no
parameter sets: nothing reaches preprocessing or the forward pass). -/
theorem C2_missing_labels_value_error (kwargs : List (String × ParamValue))
    (h : kwargs.lookup "candidate_labels" = none) :
    ZeroShotClassificationPipeline._sanitize_parameters kwargs
      = Except.error "You must include at least one label." := by
  unfold ZeroShotClassificationPipeline._sanitize_parameters
  rw [h]

/-- C2, witness: concrete kwargs holding only a hypothesis template. -/
theorem C2_missing_labels_value_error_witness :
    ([(("hypothesis_template" : String), ParamValue.str "t")].lookup
        "candidate_labels" = (none : Option ParamValue)) ∧
    ZeroShotClassificationPipeline._sanitize_parameters
        [("hypothesis_template", ParamValue.str "t")]
      = Except.error "You must include at least one label." :=
  ⟨by decide, C2_missing_labels_value_error _ (by decide)⟩

/-- C3: for every non-empty `candidate_labels` and logits tensor with one
row per label, `postprocess` returns labels and scores of equal length
`len(candidate_labels)`, and the labels are a permutation of the input
candidate labels. -/
theorem C3_postprocess_length_and_perm (e : ℚ → ℚ) (logits : List (List ℚ))
    (cl : List String) (ml : Bool) (hne : cl ≠ [])
    (hlen : logits.length = cl.length) :
    (ZeroShotClassificationPipeline.init.postprocess e logits cl ml).1.length
        = cl.length ∧
    (ZeroShotClassificationPipeline.init.postprocess e logits cl ml).2.length
        = cl.length ∧
    (ZeroShotClassificationPipeline.init.postprocess e logits cl
        ml).1.Perm cl := by
  refine ⟨by rw [postprocess_fst_length, hlen], by rw [postprocess_snd_length, hlen], ?_⟩
  rw [postprocess_fst_def]
  have hslen :
      (ZeroShotClassificationPipeline.init.scoresOf e logits cl ml).length
        = cl.length := by
    rw [scoresOf_length, hlen]
  have hperm := (reversed_index_perm
    (ZeroShotClassificationPipeline.init.scoresOf e logits cl ml)).map
    (fun i => cl.getD i "")
  rw [hslen, map_getD_range cl ""] at hperm
  exact hperm

/-- C3, witness: two labels, two logits rows. -/
theorem C3_postprocess_length_and_perm_witness :
    ((["a", "b"] : List String) ≠ [] ∧
      ([[1, 2, 3], [3, 1, 0]] : List (List ℚ)).length
        = (["a", "b"] : List String).length) ∧
    ((ZeroShotClassificationPipeline.init.postprocess eW [[1, 2, 3], [3, 1, 0]]
        ["a", "b"] false).1.length = (["a", "b"] : List String).length ∧
     (ZeroShotClassificationPipeline.init.postprocess eW [[1, 2, 3], [3, 1, 0]]
        ["a", "b"] false).2.length = (["a", "b"] : List String).length ∧
     (ZeroShotClassificationPipeline.init.postprocess eW [[1, 2, 3], [3, 1, 0]]
        ["a", "b"] false).1.Perm ["a", "b"]) :=
  ⟨⟨by decide, rfl⟩,
   C3_postprocess_length_and_perm eW [[1, 2, 3], [3, 1, 0]] ["a", "b"] false
     (by decide) rfl⟩

/-- C4: the scores returned by `postprocess` are sorted in descending
order: each entry is at least the next one. -/
theorem C4_scores_sorted_desc (e : ℚ → ℚ) (logits : List (List ℚ))
    (cl : List String) (ml : Bool) (i : Nat)
    (h : i + 1 < (ZeroShotClassificationPipeline.init.postprocess e logits cl
        ml).2.length) :
    (ZeroShotClassificationPipeline.init.postprocess e logits cl
        ml).2.getD (i + 1) 0
      ≤ (ZeroShotClassificationPipeline.init.postprocess e logits cl
        ml).2.getD i 0 := by
  have hp := postprocess_scores_pairwise e ZeroShotClassificationPipeline.init
    logits cl ml
  rw [List.pairwise_iff_getElem] at hp
  have hi : i < (ZeroShotClassificationPipeline.init.postprocess e logits cl
      ml).2.length := Nat.lt_of_succ_lt h
  rw [List.getD_eq_getElem _ _ h, List.getD_eq_getElem _ _ hi]
  exact hp i (i + 1) hi h (Nat.lt_succ_self i)

/-- C4, witness: two labels, adjacent pair at position 0. -/
theorem C4_scores_sorted_desc_witness :
    (0 + 1 < (ZeroShotClassificationPipeline.init.postprocess eW
        [[1, 2, 3], [3, 1, 0]] ["a", "b"] false).2.length) ∧
    (ZeroShotClassificationPipeline.init.postprocess eW [[1, 2, 3], [3, 1, 0]]
        ["a", "b"] false).2.getD (0 + 1) 0
      ≤ (ZeroShotClassificationPipeline.init.postprocess eW
        [[1, 2, 3], [3, 1, 0]] ["a", "b"] false).2.getD 0 0 :=
  ⟨by rw [postprocess_snd_length]; decide,
   C4_scores_sorted_desc eW [[1, 2, 3], [3, 1, 0]] ["a", "b"] false 0
     (by rw [postprocess_snd_length]; decide)⟩

/-- C5: when `multi_label` is true or there is exactly one candidate label
(regardless of the flag), each label's score is the entailment component of
a softmax over just that label's (contradiction, entailment) logit pair —
`e l[i][0] / (e l[i][2] + e l[i][0])` with the constructed class indices —
and lies in [0, 1], as does every returned score. -/
theorem C5_pair_softmax_per_label (e : ℚ → ℚ) (epos : ∀ x, 0 < e x)
    (logits : List (List ℚ)) (cl : List String) (ml : Bool)
    (hbranch : ml = true ∨ cl.length = 1) (i : Nat)
    (hi : i < logits.length) :
    ((ZeroShotClassificationPipeline.init.scoresOf e logits cl ml).getD i 0
        = e ((logits.getD i []).getD 0 0)
          / (e ((logits.getD i []).getD 2 0)
             + e ((logits.getD i []).getD 0 0))) ∧
    (0 ≤ (ZeroShotClassificationPipeline.init.scoresOf e logits cl
        ml).getD i 0 ∧
      (ZeroShotClassificationPipeline.init.scoresOf e logits cl
        ml).getD i 0 ≤ 1) ∧
    ∀ s ∈ (ZeroShotClassificationPipeline.init.postprocess e logits cl ml).2,
      0 ≤ s ∧ s ≤ 1 := by
  have hform := scoresOf_pair_getD e ZeroShotClassificationPipeline.init
    logits cl ml hbranch i hi
  refine ⟨hform, ?_, ?_⟩
  · rw [hform]
    exact pairScore_bounds e epos _ _
  · intro s hs
    have hmem : s ∈ ZeroShotClassificationPipeline.init.scoresOf e logits cl
        ml :=
      (postprocess_scores_perm e ZeroShotClassificationPipeline.init logits cl
        ml).mem_iff.mp hs
    exact scoresOf_pair_all_bounds e epos ZeroShotClassificationPipeline.init
      logits cl ml hbranch s hmem

/-- C5, witness: one candidate label with `multi_label = false`. -/
theorem C5_pair_softmax_per_label_witness :
    ((false = true ∨ (["only"] : List String).length = 1) ∧
      0 < ([[1, 2, 3]] : List (List ℚ)).length) ∧
    (((ZeroShotClassificationPipeline.init.scoresOf eW [[1, 2, 3]] ["only"]
          false).getD 0 0
        = eW ((([[1, 2, 3]] : List (List ℚ)).getD 0 []).getD 0 0)
          / (eW ((([[1, 2, 3]] : List (List ℚ)).getD 0 []).getD 2 0)
             + eW ((([[1, 2, 3]] : List (List ℚ)).getD 0 []).getD 0 0))) ∧
      (0 ≤ (ZeroShotClassificationPipeline.init.scoresOf eW [[1, 2, 3]]
          ["only"] false).getD 0 0 ∧
        (ZeroShotClassificationPipeline.init.scoresOf eW [[1, 2, 3]]
          ["only"] false).getD 0 0 ≤ 1) ∧
      ∀ s ∈ (ZeroShotClassificationPipeline.init.postprocess eW [[1, 2, 3]]
          ["only"] false).2, 0 ≤ s ∧ s ≤ 1) :=
  ⟨⟨Or.inr rfl, by decide⟩,
   C5_pair_softmax_per_label eW eW_pos [[1, 2, 3]] ["only"] false
     (Or.inr rfl) 0 (by decide)⟩

/-- C6: with `multi_label = false` and more than one candidate label, the
scores are the softmax of the entailment column (column `entailment_id = 0`)
across the label dimension, and the returned scores sum to 1. -/
theorem C6_single_selection_softmax_sum (e : ℚ → ℚ) (epos : ∀ x, 0 < e x)
    (logits : List (List ℚ)) (cl : List String)
    (hlen : logits.length = cl.length) (hgt : 1 < cl.length) :
    ZeroShotClassificationPipeline.init.scoresOf e logits cl false
        = softmax e (logits.map (fun row => row.getD 0 0)) ∧
    (ZeroShotClassificationPipeline.init.postprocess e logits cl
        false).2.sum = 1 := by
  have h1 : cl.length ≠ 1 := by omega
  have heq := scoresOf_else e ZeroShotClassificationPipeline.init logits cl h1
  refine ⟨heq, ?_⟩
  rw [List.Perm.sum_eq (postprocess_scores_perm e
    ZeroShotClassificationPipeline.init logits cl false), heq]
  apply softmax_sum e epos
  have hpos : 0 < logits.length := by omega
  have hne : logits ≠ [] := List.ne_nil_of_length_pos hpos
  simpa using hne

/-- C6, witness: two labels, `multi_label = false`. -/
theorem C6_single_selection_softmax_sum_witness :
    (([[1, 2, 3], [3, 1, 0]] : List (List ℚ)).length
        = (["a", "b"] : List String).length ∧
      1 < (["a", "b"] : List String).length) ∧
    (ZeroShotClassificationPipeline.init.scoresOf eW [[1, 2, 3], [3, 1, 0]]
        ["a", "b"] false
      = softmax eW (([[1, 2, 3], [3, 1, 0]] : List (List ℚ)).map
          (fun row => row.getD 0 0)) ∧
    (ZeroShotClassificationPipeline.init.postprocess eW [[1, 2, 3], [3, 1, 0]]
        ["a", "b"] false).2.sum = 1) :=
  ⟨⟨rfl, by decide⟩,
   C6_single_selection_softmax_sum eW eW_pos [[1, 2, 3], [3, 1, 0]]
     ["a", "b"] rfl (by decide)⟩

/-- C7: with `multi_label = true` and more than one candidate label, label
`i`'s score depends only on row `i` of the logits: two logits tensors that
agree on row `i` give label `i` the same score, and that score lies in
[0, 1]. -/
theorem C7_multilabel_row_independence (e : ℚ → ℚ) (epos : ∀ x, 0 < e x)
    (logits logits' : List (List ℚ)) (cl : List String)
    (hgt : 1 < cl.length) (i : Nat) (hi : i < logits.length)
    (hi' : i < logits'.length)
    (hrow : logits.getD i [] = logits'.getD i []) :
    ((ZeroShotClassificationPipeline.init.scoresOf e logits cl true).getD i 0
        = (ZeroShotClassificationPipeline.init.scoresOf e logits' cl
            true).getD i 0) ∧
    (0 ≤ (ZeroShotClassificationPipeline.init.scoresOf e logits cl
        true).getD i 0 ∧
      (ZeroShotClassificationPipeline.init.scoresOf e logits cl
        true).getD i 0 ≤ 1) := by
  have h1 := scoresOf_pair_getD e ZeroShotClassificationPipeline.init logits
    cl true (Or.inl rfl) i hi
  have h2 := scoresOf_pair_getD e ZeroShotClassificationPipeline.init logits'
    cl true (Or.inl rfl) i hi'
  refine ⟨?_, ?_⟩
  · rw [h1, h2, hrow]
  · rw [h1]
    exact pairScore_bounds e epos _ _

/-- C7, witness: two tensors sharing row 0, differing in row 1. -/
theorem C7_multilabel_row_independence_witness :
    (1 < (["a", "b"] : List String).length ∧
      0 < ([[1, 2, 3], [9, 9, 9]] : List (List ℚ)).length ∧
      0 < ([[1, 2, 3], [0, 0, 0]] : List (List ℚ)).length ∧
      ([[1, 2, 3], [9, 9, 9]] : List (List ℚ)).getD 0 []
        = ([[1, 2, 3], [0, 0, 0]] : List (List ℚ)).getD 0 []) ∧
    (((ZeroShotClassificationPipeline.init.scoresOf eW [[1, 2, 3], [9, 9, 9]]
          ["a", "b"] true).getD 0 0
        = (ZeroShotClassificationPipeline.init.scoresOf eW
            [[1, 2, 3], [0, 0, 0]] ["a", "b"] true).getD 0 0) ∧
      (0 ≤ (ZeroShotClassificationPipeline.init.scoresOf eW
          [[1, 2, 3], [9, 9, 9]] ["a", "b"] true).getD 0 0 ∧
        (ZeroShotClassificationPipeline.init.scoresOf eW
          [[1, 2, 3], [9, 9, 9]] ["a", "b"] true).getD 0 0 ≤ 1)) :=
  ⟨⟨by decide, by decide, by decide, by decide⟩,
   C7_multilabel_row_independence eW eW_pos [[1, 2, 3], [9, 9, 9]]
     [[1, 2, 3], [0, 0, 0]] ["a", "b"] (by decide) 0 (by decide) (by decide)
     (by decide)⟩

/-- C8: when `candidate_labels` is present, `_sanitize_parameters` routes it
to both the preprocess and postprocess sets, `hypothesis_template`
(default the single-slot template) only to preprocess, `multi_label`
(default false) only to postprocess, and the forward parameter set is
empty. -/
theorem C8_parameter_routing (kwargs : List (String × ParamValue))
    (v : ParamValue) (h : kwargs.lookup "candidate_labels" = some v) :
    ZeroShotClassificationPipeline._sanitize_parameters kwargs
      = Except.ok
          ([("candidate_labels", v),
            ("hypothesis_template",
              (kwargs.lookup "hypothesis_template").getD
                (ParamValue.str "\x7b\x7d"))],
           [],
           [("candidate_labels", v),
            ("multi_label",
              (kwargs.lookup "multi_label").getD (ParamValue.bool false))]) := by
  unfold ZeroShotClassificationPipeline._sanitize_parameters
  rw [h]

/-- C8, witness: kwargs carrying labels and an explicit `multi_label`. -/
theorem C8_parameter_routing_witness :
    ([("candidate_labels", ParamValue.labels ["a"]),
      ("multi_label", ParamValue.bool true)].lookup "candidate_labels"
        = some (ParamValue.labels ["a"])) ∧
    ZeroShotClassificationPipeline._sanitize_parameters
        [("candidate_labels", ParamValue.labels ["a"]),
         ("multi_label", ParamValue.bool true)]
      = Except.ok
          ([("candidate_labels", ParamValue.labels ["a"]),
            ("hypothesis_template", ParamValue.str "\x7b\x7d")],
           [],
           [("candidate_labels", ParamValue.labels ["a"]),
            ("multi_label", ParamValue.bool true)]) :=
  ⟨by decide,
   C8_parameter_routing
     [("candidate_labels", ParamValue.labels ["a"]),
      ("multi_label", ParamValue.bool true)] (ParamValue.labels ["a"])
     (by decide)⟩

/-- When the checked scores computation succeeds, it computes exactly the
scores of the totalized `scoresOf`. -/
theorem scoresOfChecked_agrees (e : ℚ → ℚ)
    (p : ZeroShotClassificationPipeline) (logits : List (List ℚ))
    (cl : List String) (ml : Bool) (s : List ℚ)
    (h : p.scoresOfChecked e logits cl ml = some s) :
    p.scoresOf e logits cl ml = s := by
  unfold ZeroShotClassificationPipeline.scoresOfChecked at h
  unfold ZeroShotClassificationPipeline.scoresOf
  split at h
  · rename_i hc
    rw [if_pos hc]
    exact Option.some.inj h
  · rename_i hc
    rw [if_neg hc]
    split at h
    · exact absurd h (by simp)
    · exact Option.some.inj h

/-- When the checked postprocess succeeds, its result is exactly the result
of the totalized `postprocess`. -/
theorem postprocessChecked_agrees (e : ℚ → ℚ)
    (p : ZeroShotClassificationPipeline) (logits : List (List ℚ))
    (cl : List String) (ml : Bool) (r : List String × List ℚ)
    (h : p.postprocessChecked e logits cl ml = some r) :
    p.postprocess e logits cl ml = r := by
  unfold ZeroShotClassificationPipeline.postprocessChecked at h
  cases hs : p.scoresOfChecked e logits cl ml with
  | none =>
    rw [hs] at h
    exact absurd h (by simp)
  | some s =>
    rw [hs] at h
    have hagree := scoresOfChecked_agrees e p logits cl ml s hs
    have hr := Option.some.inj h
    rw [← hr]
    refine Prod.ext ?_ ?_
    · rw [postprocess_fst_def, hagree]
    · rw [postprocess_snd_def, hagree]

/-- C9, counterexample: with the default `multi_label = false`, postprocess
on empty `candidate_labels` and an empty logits row dimension does not
return empty sequences: the else branch hands the empty entailment column
to `scipy.special.softmax`, whose zero-size `np.amax` reduction raises
`ValueError` — the checked postprocess returns `none`, not
`some ([], [])`. -/
theorem C9_empty_labels_claim_counterexample :
    ZeroShotClassificationPipeline.init.postprocessChecked eW [] [] false
        = none ∧
    ZeroShotClassificationPipeline.init.postprocessChecked eW [] [] false
        ≠ some ([], []) := by
  exact ⟨rfl, by decide⟩

/-- C9 (amended): a supplied but empty `candidate_labels` passes
`_sanitize_parameters` without error (the "at least one label" check fires
only when the key is entirely absent); on empty candidate labels with an
empty logits row dimension, `postprocess` returns empty labels and scores
when `multi_label` is true, but with the default `multi_label = false` the
softmax over the empty entailment column raises a value error, so
postprocess fails instead of returning empty sequences. -/
theorem C9_empty_labels_amended (kwargs : List (String × ParamValue))
    (v : ParamValue) (h : kwargs.lookup "candidate_labels" = some v)
    (e : ℚ → ℚ) :
    (ZeroShotClassificationPipeline._sanitize_parameters kwargs).isOk
        = true ∧
    ZeroShotClassificationPipeline.init.postprocessChecked e [] [] true
        = some ([], []) ∧
    ZeroShotClassificationPipeline.init.postprocessChecked e [] [] false
        = none := by
  refine ⟨?_, rfl, rfl⟩
  unfold ZeroShotClassificationPipeline._sanitize_parameters
  rw [h]
  rfl

/-- C9, witness: kwargs whose `candidate_labels` value is the empty list. -/
theorem C9_empty_labels_amended_witness :
    ([("candidate_labels", ParamValue.labels [])].lookup "candidate_labels"
        = some (ParamValue.labels [])) ∧
    ((ZeroShotClassificationPipeline._sanitize_parameters
        [("candidate_labels", ParamValue.labels [])]).isOk = true ∧
      ZeroShotClassificationPipeline.init.postprocessChecked eW [] [] true
        = some ([], []) ∧
      ZeroShotClassificationPipeline.init.postprocessChecked eW [] [] false
        = none) :=
  ⟨by decide,
   C9_empty_labels_amended [("candidate_labels", ParamValue.labels [])]
     (ParamValue.labels []) (by decide) eW⟩
